import Mathlib

/-!
Shallow embedding of `src/DLEAMSE/search_embedded-spectra_against_index.py`.

The script is a thin pipeline over external libraries (faiss, numpy, h5py):
load a FAISS index (moving it to a GPU when one is present), load and
row-concatenate query-vector files, run a k-NN search, take the elementwise
square root of the returned squared distances, and write three datasets
(`spectrum_ids`, `D`, `I`) to an HDF5 output file.

Modelling choices:
- numeric entries are idealized as real numbers; `D ** 0.5` on the
  non-negative squared distances produced by the library is `Real.sqrt`;
- a numpy array is its list of rows plus a dtype tag and a contiguity flag
  (the two storage attributes the script manipulates via
  `np.ascontiguousarray(..., dtype=np.float32)`);
- the filesystem is a map from paths to parsed file contents; parsing and
  serialization themselves are delegated to external libraries by the script
  and are therefore modelled at the level of their results;
- the opaque FAISS index is a function from a query matrix and `k` to the
  raw `(D, I)` pair of the library convention (squared distances, ids);
- Python exceptions become an `Except Err` result, with `Err` constructors
  named after the specification's error taxonomy for the raise sites the
  script owns (missing file, unknown extension, vstack shape mismatch, ...).
-/

namespace DLEAMSE

/-- Element dtype of a stored numpy array (the two the script can produce). -/
inductive Dtype
  | f32
  | f64
  deriving DecidableEq

/-- A numpy 2-D array: rows of real entries, a dtype tag, a contiguity flag. -/
structure NDArray where
  rows : List (List ℝ)
  dtype : Dtype
  contiguous : Bool

/-- Number of rows, `a.shape[0]`. -/
def NDArray.numRows (a : NDArray) : Nat :=
  a.rows.length

/-- Column count of a list of rows (rectangular by construction in numpy). -/
def rowsCols : List (List ℝ) → Nat
  | [] => 0
  | r :: _ => r.length

/-- Number of columns, `a.shape[1]`. -/
def NDArray.numCols (a : NDArray) : Nat :=
  rowsCols a.rows

/-- A dataset stored in an HDF5 container. -/
inductive H5Data
  | vecI (xs : List ℤ)
  | matF (rows : List (List ℝ))
  | matI (rows : List (List ℤ))
  | stored (a : NDArray)

/-- Parsed content of a file on disk. -/
inductive FileData
  | txt (rows : List (List ℝ))
  | h5 (datasets : List (String × H5Data))
  | npy (a : NDArray)
  | emptyFile

/-- The filesystem: a map from paths to file contents. -/
def FileSystem : Type :=
  String → Option FileData

/-- Errors raised by the script, named after the spec's error taxonomy. -/
inductive Err
  | fileNotFound (msg : String)
  | unsupportedFormat (msg : String)
  | shapeMismatch (msg : String)
  | readError (msg : String)
  | indexLoadError (msg : String)
  | parseError (msg : String)
  deriving DecidableEq

/-- `H5_MATRIX_NAME = 'MATRIX'`. -/
def H5_MATRIX_NAME : String :=
  "MATRIX"

/-- The opaque FAISS CPU index: `index.search(embedded, k)` returns the raw
`(D, I)` pair (squared distances and neighbor ids) of the library convention. -/
structure FaissCpuIndex where
  search : NDArray → Nat → List (List ℝ) × List (List ℤ)

/-- A loaded index, either CPU-resident or transferred to a GPU device. -/
inductive LoadedIndex
  | onCpu (i : FaissCpuIndex)
  | onGpu (device : Nat) (i : FaissCpuIndex)

/-- The underlying CPU index (GPU transfer preserves the search contract). -/
def LoadedIndex.base : LoadedIndex → FaissCpuIndex
  | .onCpu i => i
  | .onGpu _ i => i

/-- `index.search(embedded, k)` on a loaded index delegates to the library. -/
def LoadedIndex.search (idx : LoadedIndex) (q : NDArray) (k : Nat) :
    List (List ℝ) × List (List ℤ) :=
  idx.base.search q k

/-- External environment: number of GPUs reported by `faiss.get_num_gpus()`
and the library's index deserializer `faiss.read_index` on file contents. -/
structure Env where
  numGpus : Nat
  readIndex : FileData → Except Err FaissCpuIndex

/-- `faiss.read_index(path)`: deserialize the index file at `path`. -/
def faiss_read_index (env : Env) (fs : FileSystem) (path : String) :
    Except Err FaissCpuIndex :=
  match fs path with
  | some d => env.readIndex d
  | none => .error (.indexLoadError path)

/-- `read_faiss_index`: load a FAISS index; if we are on GPU, convert it to a
GPU index on device 0 (`faiss.index_cpu_to_gpu(StandardGpuResources(), 0, index)`). -/
def read_faiss_index (env : Env) (fs : FileSystem) (path : String) :
    Except Err LoadedIndex :=
  match faiss_read_index env fs path with
  | .error e => .error e
  | .ok index =>
    if env.numGpus ≠ 0 then
      .ok (.onGpu 0 index)
    else
      .ok (.onCpu index)

/-- `search_index`: simple search; `search()` returns squared L2 norm, so
square root the results (`D = D ** 0.5`), passing `I` through. -/
noncomputable def search_index (idx : LoadedIndex) (embedded : NDArray) (k : Nat) :
    List (List ℝ) × List (List ℤ) :=
  let DI := LoadedIndex.search idx embedded k
  (DI.1.map (fun row => row.map Real.sqrt), DI.2)

/-- `write_search_results`: open `outpath` with mode `'w'` (overwriting) and
create the three datasets `spectrum_ids = np.array(range(D.shape[0]))`, `D`, `I`. -/
def write_search_results (fs : FileSystem) (D : List (List ℝ)) (I : List (List ℤ))
    (outpath : String) : FileSystem :=
  fun p =>
    if p = outpath then
      some (.h5 [("spectrum_ids", .vecI ((List.range D.length).map Int.ofNat)),
                 ("D", .matF D),
                 ("I", .matI I)])
    else
      fs p

/-- `os.path.exists(path)`. -/
def os_path_exists (fs : FileSystem) (path : String) : Bool :=
  (fs path).isSome

/-- Rectangularity check: `np.loadtxt` rejects ragged text input. -/
def isRect : List (List ℝ) → Bool
  | [] => true
  | r :: rest => rest.all (fun s => s.length == r.length)

/-- `np.loadtxt(path)`: parse a whitespace-delimited numeric text file into a
float64 array; non-numeric or ragged content raises. -/
def np_loadtxt (fs : FileSystem) (path : String) : Except Err NDArray :=
  match fs path with
  | some (.txt rows) =>
    if isRect rows then .ok ⟨rows, .f64, true⟩ else .error (.parseError path)
  | some .emptyFile => .ok ⟨[], .f64, true⟩
  | some _ => .error (.parseError path)
  | none => .error (.readError path)

/-- `np.ascontiguousarray(a, dtype)`: same rows, requested dtype, contiguous. -/
def np_ascontiguousarray (a : NDArray) (dt : Dtype) : NDArray :=
  ⟨a.rows, dt, true⟩

/-- `loadVector`: load embedded vectors; if the path exists, `np.loadtxt` it
and make it contiguous float32, otherwise raise naming the path. -/
def loadVector (fs : FileSystem) (path : String) : Except Err NDArray :=
  if os_path_exists fs path then
    match np_loadtxt fs path with
    | .ok vectors => .ok (np_ascontiguousarray vectors .f32)
    | .error e => .error e
  else
    .error (.fileNotFound ("File \"" ++ path ++ "\" does not exists"))

/-- Lowercase a string, `s.lower()`. -/
def strLower (s : String) : String :=
  String.mk (s.toList.map Char.toLower)

/-- The suffix of a character list starting at its last `'.'`, if any. -/
def suffixFromLastDot : List Char → Option (List Char)
  | [] => none
  | c :: rest =>
    match suffixFromLastDot rest with
    | some suf => some suf
    | none => if c = '.' then some (c :: rest) else none

/-- `filepath[filepath.rfind("."):].lower()`: the extension from the last dot;
with no dot, Python's `rfind` gives `-1` and the slice is the last character. -/
def extension_lower (path : String) : String :=
  match suffixFromLastDot path.toList with
  | some suf => strLower (String.mk suf)
  | none => strLower (String.mk ((path.toList.reverse.take 1).reverse))

/-- `h5f[name]` lookup among the datasets of an HDF5 container. -/
def lookupDataset (name : String) : List (String × H5Data) → Option H5Data
  | [] => none
  | (n, d) :: rest => if n = name then some d else lookupDataset name rest

/-- `read_array_file`: read a numpy array from a `.h5` or `.npy` file,
inferring the encoding from the extension; any other extension raises
`ValueError` naming the extension and the path. -/
def read_array_file (fs : FileSystem) (filepath : String) : Except Err NDArray :=
  let ext := extension_lower filepath
  if ext = ".h5" then
    match fs filepath with
    | some (.h5 ds) =>
      match lookupDataset H5_MATRIX_NAME ds with
      | some (.stored a) => .ok a
      | _ => .error (.readError ("Failed to read array named " ++ H5_MATRIX_NAME
               ++ " from file " ++ filepath))
    | _ => .error (.readError filepath)
  else if ext = ".npy" then
    match fs filepath with
    | some (.npy a) => .ok a
    | _ => .error (.readError filepath)
  else
    .error (.unsupportedFormat ("read_array_file: Unknown extension " ++ ext
      ++ " for file " ++ filepath))

/-- All arrays share the first array's column count (`np.vstack`'s check). -/
def sameCols : List NDArray → Bool
  | [] => true
  | a :: rest => rest.all (fun b => b.numCols == a.numCols)

/-- Result dtype of `np.vstack` under numpy type promotion. -/
def vstackDtype (arrays : List NDArray) : Dtype :=
  if arrays.all (fun a => a.dtype == .f32) then .f32 else .f64

/-- `np.vstack(arrays)`: stack row-wise in the order given; raises on an empty
list or on column-count mismatch. -/
def np_vstack : List NDArray → Except Err NDArray
  | [] => .error (.shapeMismatch "need at least one array to concatenate")
  | a :: rest =>
    if sameCols (a :: rest) then
      .ok ⟨((a :: rest).map NDArray.rows).flatten, vstackDtype (a :: rest), true⟩
    else
      .error (.shapeMismatch
        "all the input array dimensions except for the concatenation axis must match exactly")

/-- The loop of `main`: `loadVector` each embedded file, in order. -/
def loadAll (fs : FileSystem) : List String → Except Err (List NDArray)
  | [] => .ok []
  | p :: ps =>
    match loadVector fs p with
    | .error e => .error e
    | .ok a =>
      match loadAll fs ps with
      | .error e => .error e
      | .ok rest => .ok (a :: rest)

/-- The spec's `loadAndConcatenate`: load each path in order, then `np.vstack`. -/
def loadAndConcatenate (fs : FileSystem) (paths : List String) :
    Except Err NDArray :=
  match loadAll fs paths with
  | .error e => .error e
  | .ok arrays => np_vstack arrays

/-- Opening a path with mode `'w'` creates or truncates the file there. -/
def openForWrite (fs : FileSystem) (path : String) : FileSystem :=
  fun p => if p = path then some .emptyFile else fs p

/-- `declare_gather_args`: argparse opens `indexfile` and each `embedded` path
for reading (failing on a missing one) and opens `--out` with mode `'w'`,
creating or truncating the file there, all during argument parsing. -/
def declare_gather_args (fs0 : FileSystem) (indexfile : String)
    (embedded : List String) (out : String) : Except Err FileSystem :=
  if (fs0 indexfile).isNone then
    .error (.fileNotFound indexfile)
  else
    match embedded.find? (fun p => (fs0 p).isNone) with
    | some p => .error (.fileNotFound p)
    | none => .ok (openForWrite fs0 out)

/-- `main`: parse args (which opens `--out` for writing), load the index, load
and vstack the embedded files, search with `args.k`, write the results. -/
noncomputable def main (env : Env) (fs0 : FileSystem) (indexfile : String)
    (embedded : List String) (k : Nat) (out : String) :
    FileSystem × Except Err Unit :=
  match declare_gather_args fs0 indexfile embedded out with
  | .error e => (fs0, .error e)
  | .ok fs1 =>
    match read_faiss_index env fs1 indexfile with
    | .error e => (fs1, .error e)
    | .ok index =>
      match loadAll fs1 embedded with
      | .error e => (fs1, .error e)
      | .ok arrays =>
        match np_vstack arrays with
        | .error e => (fs1, .error e)
        | .ok spectra =>
          let DI := search_index index spectra k
          (write_search_results fs1 DI.1 DI.2 out, .ok ())

/-- `executeSearch`: the batch helper; loads the index, reads one embedded
file via `read_array_file`, vstacks the singleton list, searches with the
hardcoded `k = 1`, and writes the results. -/
noncomputable def executeSearch (env : Env) (fs : FileSystem)
    (embedded indexfile resultfile : String) : FileSystem × Except Err Unit :=
  match read_faiss_index env fs indexfile with
  | .error e => (fs, .error e)
  | .ok index =>
    match read_array_file fs embedded with
    | .error e => (fs, .error e)
    | .ok run_spectra =>
      match np_vstack [run_spectra] with
      | .error e => (fs, .error e)
      | .ok spectra =>
        let DI := search_index index spectra 1
        (write_search_results fs DI.1 DI.2 resultfile, .ok ())

/-! ## Concrete fixtures used by witnesses and counterexamples -/

/-- A concrete library index: for every query row it returns `k` zero
distances and `k` zero ids, satisfying the library's shape contract. -/
def idx0 : FaissCpuIndex :=
  ⟨fun q k => (q.rows.map (fun _ => List.replicate k (0 : ℝ)),
               q.rows.map (fun _ => List.replicate k (0 : ℤ)))⟩

/-- Environment with one GPU and an always-succeeding index deserializer. -/
def envG : Env :=
  ⟨1, fun _ => .ok idx0⟩

/-- Environment with no GPU and an always-succeeding index deserializer. -/
def env0 : Env :=
  ⟨0, fun _ => .ok idx0⟩

/-- Environment whose index deserializer always fails. -/
def envBad : Env :=
  ⟨0, fun _ => .error (.indexLoadError "bad index")⟩

/-- The empty filesystem. -/
def fsEmpty : FileSystem :=
  fun _ => none

/-- A small concrete filesystem with text, npy and h5 query files. -/
def fsA : FileSystem := fun p =>
  if p = "i.idx" then some .emptyFile
  else if p = "a.txt" then some (.txt [[1, 2]])
  else if p = "b.txt" then some (.txt [[3, 4], [5, 6]])
  else if p = "c.txt" then some (.txt [[7, 8, 9]])
  else if p = "q.npy" then some (.npy ⟨[[1, 2]], .f64, true⟩)
  else if p = "q.txt" then some (.txt [[1]])
  else if p = "m.h5" then some (.h5 [("MATRIX", .stored ⟨[[9]], .f64, true⟩)])
  else none

/-- A concrete query matrix. -/
def qA : NDArray :=
  ⟨[[1, 2]], .f32, true⟩

/-! ## Claim theorems -/

/-- C1: `search_index` returns exactly the library's k-NN output with each
distance replaced by its elementwise non-negative square root and the
neighbor-id matrix passed through unchanged; rows are mapped in place, so
the library's per-row order is preserved and nothing is re-sorted, and every
returned distance is non-negative. -/
theorem C1_search_index_sqrt (idx : LoadedIndex) (embedded : NDArray) (k : Nat) :
    search_index idx embedded k
      = ((LoadedIndex.search idx embedded k).1.map (fun row => row.map Real.sqrt),
         (LoadedIndex.search idx embedded k).2)
    ∧ ∀ row ∈ (search_index idx embedded k).1, ∀ x ∈ row, 0 ≤ x := by
  refine ⟨rfl, ?_⟩
  intro row hrow x hx
  simp only [search_index, List.mem_map] at hrow
  obtain ⟨row0, _, rfl⟩ := hrow
  simp only [List.mem_map] at hx
  obtain ⟨y, _, rfl⟩ := hx
  exact Real.sqrt_nonneg y

/-- Witness for C1 at a concrete index and query. -/
theorem C1_witness :
    search_index (.onCpu idx0) qA 3
      = ((LoadedIndex.search (.onCpu idx0) qA 3).1.map (fun row => row.map Real.sqrt),
         (LoadedIndex.search (.onCpu idx0) qA 3).2)
    ∧ ∀ row ∈ (search_index (.onCpu idx0) qA 3).1, ∀ x ∈ row, 0 ≤ x :=
  C1_search_index_sqrt (.onCpu idx0) qA 3

/-- C6: loading a query-vector file from a path that does not exist fails
with the spec's `FileNotFoundError`, whose message names the path. -/
theorem C6_loadVector_missing (fs : FileSystem) (path : String)
    (h : fs path = none) :
    loadVector fs path
      = .error (.fileNotFound ("File \"" ++ path ++ "\" does not exists")) := by
  simp [loadVector, os_path_exists, h]

/-- Witness for C6 on the empty filesystem. -/
theorem C6_witness :
    fsEmpty "missing.txt" = none
    ∧ loadVector fsEmpty "missing.txt"
        = .error (.fileNotFound "File \"missing.txt\" does not exists") :=
  ⟨rfl, C6_loadVector_missing fsEmpty "missing.txt" rfl⟩

/-- C7: once the index file deserializes, the loaded index is transferred to
GPU device 0 when at least one accelerator is present, and is returned
CPU-resident (not an error) when none is. -/
theorem C7_read_faiss_index_gpu (env : Env) (fs : FileSystem) (path : String)
    (i : FaissCpuIndex) (h : faiss_read_index env fs path = .ok i) :
    (0 < env.numGpus → read_faiss_index env fs path = .ok (.onGpu 0 i))
    ∧ (env.numGpus = 0 → read_faiss_index env fs path = .ok (.onCpu i)) := by
  unfold read_faiss_index
  rw [h]
  constructor
  · intro hg
    simp [Nat.pos_iff_ne_zero.mp hg]
  · intro hg
    simp [hg]

/-- Witness for C7 in a one-GPU and a zero-GPU environment. -/
theorem C7_witness :
    read_faiss_index envG fsA "i.idx" = .ok (.onGpu 0 idx0)
    ∧ read_faiss_index env0 fsA "i.idx" = .ok (.onCpu idx0) :=
  ⟨(C7_read_faiss_index_gpu envG fsA "i.idx" idx0 rfl).1 (by decide),
   (C7_read_faiss_index_gpu env0 fsA "i.idx" idx0 rfl).2 rfl⟩

/-- C3: for any distances matrix `D` of shape `(N, k)` and neighbor-id matrix
`I` of shape `(N, k)`, `write_search_results` maps the output path (whatever
was there before, so an existing file is overwritten) to a container holding
exactly the three datasets `spectrum_ids = 0..N-1` (length `N`), `D`, and `I`. -/
theorem C3_write_search_results (fs : FileSystem) (D : List (List ℝ))
    (I : List (List ℤ)) (out : String) (N k : Nat)
    (hD : D.length = N) (hDk : ∀ r ∈ D, r.length = k)
    (hI : I.length = N) (hIk : ∀ r ∈ I, r.length = k) :
    write_search_results fs D I out out
      = some (.h5 [("spectrum_ids", .vecI ((List.range N).map Int.ofNat)),
                   ("D", .matF D), ("I", .matI I)])
    ∧ ((List.range N).map Int.ofNat).length = N := by
  subst hD
  exact ⟨by simp [write_search_results], by rw [List.length_map, List.length_range]⟩

/-- Witness for C3 with `N = 2`, `k = 1`, over a filesystem that already has
a file at the output path (checking the overwrite). -/
theorem C3_witness :
    write_search_results fsA [[1], [4]] [[7], [8]] "a.txt" "a.txt"
      = some (.h5 [("spectrum_ids", .vecI ((List.range 2).map Int.ofNat)),
                   ("D", .matF [[1], [4]]), ("I", .matI [[7], [8]])])
    ∧ ((List.range 2).map Int.ofNat).length = 2 :=
  C3_write_search_results fsA [[1], [4]] [[7], [8]] "a.txt" 2 1 rfl
    (by intro r hr; simp at hr; rcases hr with h | h <;> simp [h])
    rfl
    (by intro r hr; simp at hr; rcases hr with h | h <;> simp [h])

/-- C5 counterexample: the extension-dispatching loader `read_array_file`
rejects a plain-text `.txt` file with `UnsupportedFormatError` even though the
claim lists plain-text as a recognized encoding, and it accepts a `.npy`
binary array file, which is neither of the claim's two encodings. -/
theorem C5_counterexample :
    read_array_file fsA "q.txt"
      = .error (.unsupportedFormat
          "read_array_file: Unknown extension .txt for file q.txt")
    ∧ read_array_file fsA "q.npy" = .ok ⟨[[1, 2]], .f64, true⟩ :=
  ⟨rfl, rfl⟩

/-- C5 amended: `read_array_file` selects the encoding by extension between
`.h5` (structured container, single dataset named `MATRIX`) and `.npy`
(binary array); every other extension fails with `UnsupportedFormatError`
whose message includes the offending extension and the path. -/
theorem C5_read_array_file_dispatch (fs : FileSystem) (path : String) :
    (extension_lower path ≠ ".h5" → extension_lower path ≠ ".npy" →
      read_array_file fs path
        = .error (.unsupportedFormat
            ("read_array_file: Unknown extension " ++ extension_lower path
              ++ " for file " ++ path)))
    ∧ (∀ ds a, extension_lower path = ".h5" → fs path = some (.h5 ds) →
        lookupDataset H5_MATRIX_NAME ds = some (.stored a) →
        read_array_file fs path = .ok a)
    ∧ (∀ a, extension_lower path = ".npy" → fs path = some (.npy a) →
        read_array_file fs path = .ok a) := by
  refine ⟨?_, ?_, ?_⟩
  · intro h5ne npyne
    simp [read_array_file, h5ne, npyne]
  · intro ds a hext hfs hlook
    simp [read_array_file, hext, hfs, hlook]
  · intro a hext hfs
    have : extension_lower path ≠ ".h5" := by rw [hext]; decide
    simp [read_array_file, hext, this, hfs]

/-- Witness for C5's amended claim on the three concrete extension cases. -/
theorem C5_witness :
    read_array_file fsA "x.bin"
      = .error (.unsupportedFormat
          "read_array_file: Unknown extension .bin for file x.bin")
    ∧ read_array_file fsA "m.h5" = .ok ⟨[[9]], .f64, true⟩
    ∧ read_array_file fsA "q.npy" = .ok ⟨[[1, 2]], .f64, true⟩ :=
  ⟨(C5_read_array_file_dispatch fsA "x.bin").1 (by decide) (by decide),
   (C5_read_array_file_dispatch fsA "m.h5").2.1
     [("MATRIX", .stored ⟨[[9]], .f64, true⟩)] ⟨[[9]], .f64, true⟩ rfl rfl rfl,
   (C5_read_array_file_dispatch fsA "q.npy").2.2 ⟨[[1, 2]], .f64, true⟩ rfl rfl⟩

/-- C8 counterexample: the structured-container/binary loader returns the
stored array unchanged, so a `.npy` file holding a float64 array loads as
float64, not single-precision, refuting the claim for that encoding. -/
theorem C8_counterexample :
    read_array_file fsA "q.npy" = .ok ⟨[[1, 2]], Dtype.f64, true⟩
    ∧ Dtype.f64 ≠ Dtype.f32 :=
  ⟨rfl, by decide⟩

/-- C8 amended: matrices produced by `loadVector` are contiguous
single-precision, while `read_array_file` returns the stored array exactly as
it is on disk (no dtype or contiguity conversion). -/
theorem C8_loaded_array_storage (fs : FileSystem) (path : String) (a : NDArray) :
    (loadVector fs path = .ok a → a.dtype = .f32 ∧ a.contiguous = true)
    ∧ (read_array_file fs path = .ok a →
        fs path = some (.npy a)
        ∨ ∃ ds, fs path = some (.h5 ds)
            ∧ lookupDataset H5_MATRIX_NAME ds = some (.stored a)) := by
  constructor
  · intro h
    unfold loadVector at h
    split at h
    · cases hload : np_loadtxt fs path with
      | ok v => rw [hload] at h; cases h; exact ⟨rfl, rfl⟩
      | error e => rw [hload] at h; cases h
    · cases h
  · intro h
    by_cases hh5 : extension_lower path = ".h5"
    · cases hfs : fs path with
      | none => simp [read_array_file, hh5, hfs] at h
      | some d =>
        cases d with
        | h5 ds =>
          cases hlook : lookupDataset H5_MATRIX_NAME ds with
          | none => simp [read_array_file, hh5, hfs, hlook] at h
          | some entry =>
            cases entry with
            | stored b =>
              simp [read_array_file, hh5, hfs, hlook] at h
              subst h
              exact .inr ⟨ds, rfl, hlook⟩
            | vecI xs => simp [read_array_file, hh5, hfs, hlook] at h
            | matF rows => simp [read_array_file, hh5, hfs, hlook] at h
            | matI rows => simp [read_array_file, hh5, hfs, hlook] at h
        | txt rows => simp [read_array_file, hh5, hfs] at h
        | npy b => simp [read_array_file, hh5, hfs] at h
        | emptyFile => simp [read_array_file, hh5, hfs] at h
    · by_cases hnpy : extension_lower path = ".npy"
      · cases hfs : fs path with
        | none => simp [read_array_file, hh5, hnpy, hfs] at h
        | some d =>
          cases d with
          | npy b =>
            simp [read_array_file, hh5, hnpy, hfs] at h
            subst h
            exact .inl rfl
          | txt rows => simp [read_array_file, hh5, hnpy, hfs] at h
          | h5 ds => simp [read_array_file, hh5, hnpy, hfs] at h
          | emptyFile => simp [read_array_file, hh5, hnpy, hfs] at h
      · simp [read_array_file, hh5, hnpy] at h

/-- Witness for C8's amended claim: a text file loads as contiguous float32,
and a `.npy` file's array is returned exactly as stored. -/
theorem C8_witness :
    ((⟨[[1, 2]], .f32, true⟩ : NDArray).dtype = .f32
      ∧ (⟨[[1, 2]], .f32, true⟩ : NDArray).contiguous = true)
    ∧ (fsA "q.npy" = some (.npy ⟨[[1, 2]], .f64, true⟩)
        ∨ ∃ ds, fsA "q.npy" = some (.h5 ds)
            ∧ lookupDataset H5_MATRIX_NAME ds
                = some (.stored ⟨[[1, 2]], .f64, true⟩)) :=
  ⟨(C8_loaded_array_storage fsA "a.txt" ⟨[[1, 2]], .f32, true⟩).1 rfl,
   (C8_loaded_array_storage fsA "q.npy" ⟨[[1, 2]], .f64, true⟩).2 rfl⟩

/-- Loading a list of paths successfully yields one array per path. -/
theorem loadAll_length (fs : FileSystem) :
    ∀ (ps : List String) (as : List NDArray),
      loadAll fs ps = .ok as → as.length = ps.length
  | [], as, h => by
    simp only [loadAll] at h
    cases h
    rfl
  | p :: ps, as, h => by
    simp only [loadAll] at h
    cases hl : loadVector fs p with
    | error e => rw [hl] at h; cases h
    | ok a =>
      rw [hl] at h
      cases hrest : loadAll fs ps with
      | error e => rw [hrest] at h; cases h
      | ok rest =>
        rw [hrest] at h
        cases h
        have ih := loadAll_length fs ps rest hrest
        simp [ih]

/-- C2: loading a non-empty sequence of query-vector files with equal column
counts and concatenating them yields a matrix whose rows are the rows of each
file in file-given order (row order within each file preserved) and whose row
count is the sum of the files' row counts. -/
theorem C2_loadAndConcatenate_rows (fs : FileSystem) (paths : List String)
    (arrays : List NDArray)
    (h : loadAll fs paths = .ok arrays) (hne : paths ≠ [])
    (hcols : sameCols arrays = true) :
    ∃ m, loadAndConcatenate fs paths = .ok m
      ∧ m.rows = (arrays.map NDArray.rows).flatten
      ∧ m.numRows = (arrays.map NDArray.numRows).sum := by
  have hlen := loadAll_length fs paths arrays h
  cases arrays with
  | nil =>
    exact absurd (List.length_eq_zero.mp hlen.symm) hne
  | cons a rest =>
    refine ⟨⟨((a :: rest).map NDArray.rows).flatten, vstackDtype (a :: rest), true⟩,
            ?_, rfl, ?_⟩
    · simp [loadAndConcatenate, h, np_vstack, hcols]
    · show (((a :: rest).map NDArray.rows).flatten).length = _
      rw [List.length_flatten, List.map_map]
      rfl

/-- Witness for C2 on two concrete text files of one and two rows. -/
theorem C2_witness :
    loadAll fsA ["a.txt", "b.txt"]
      = .ok [⟨[[1, 2]], .f32, true⟩, ⟨[[3, 4], [5, 6]], .f32, true⟩]
    ∧ ∃ m, loadAndConcatenate fsA ["a.txt", "b.txt"] = .ok m
        ∧ m.rows = [[1, 2], [3, 4], [5, 6]]
        ∧ m.numRows = 3 := by
  have h : loadAll fsA ["a.txt", "b.txt"]
      = .ok [⟨[[1, 2]], .f32, true⟩, ⟨[[3, 4], [5, 6]], .f32, true⟩] := rfl
  refine ⟨h, ?_⟩
  obtain ⟨m, hm, hrows, hnum⟩ :=
    C2_loadAndConcatenate_rows fsA ["a.txt", "b.txt"] _ h (by simp) rfl
  exact ⟨m, hm, by simpa using hrows, by simpa using hnum⟩

/-- C4 counterexample: two existing query files with 2 and 3 columns make the
pipeline fail with `ShapeMismatchError`, but a file IS created at the output
path (argparse opened `--out` in write mode), refuting "no file is created or
modified at the output path". -/
theorem C4_counterexample :
    fsA "o.h5" = none
    ∧ (main envG fsA "i.idx" ["a.txt", "c.txt"] 5 "o.h5").2
        = .error (.shapeMismatch
            "all the input array dimensions except for the concatenation axis must match exactly")
    ∧ (main envG fsA "i.idx" ["a.txt", "c.txt"] 5 "o.h5").1 "o.h5"
        = some .emptyFile :=
  ⟨rfl, rfl, rfl⟩

/-- C4 amended: concatenating two query files with differing column counts
raises `ShapeMismatchError` and no search results are written, but the output
path holds an empty file, created when argument parsing opened it for writing. -/
theorem C4_mismatch_leaves_empty_out (env : Env) (fs0 : FileSystem)
    (indexfile p1 p2 out : String) (k : Nat) (r1 r2 : List (List ℝ))
    (h1 : fs0 p1 = some (.txt r1)) (h2 : fs0 p2 = some (.txt r2))
    (hrect1 : isRect r1 = true) (hrect2 : isRect r2 = true)
    (hop1 : p1 ≠ out) (hop2 : p2 ≠ out)
    (hidx : (fs0 indexfile).isSome = true)
    (hread : ∃ i, read_faiss_index env (openForWrite fs0 out) indexfile = .ok i)
    (hcols : rowsCols r1 ≠ rowsCols r2) :
    (main env fs0 indexfile [p1, p2] k out).2
      = .error (.shapeMismatch
          "all the input array dimensions except for the concatenation axis must match exactly")
    ∧ (main env fs0 indexfile [p1, p2] k out).1 out = some .emptyFile := by
  obtain ⟨i, hi⟩ := hread
  have hparse : declare_gather_args fs0 indexfile [p1, p2] out
      = .ok (openForWrite fs0 out) := by
    have hni : (fs0 indexfile).isNone = false := by
      cases hfs : fs0 indexfile with
      | none => rw [hfs] at hidx; cases hidx
      | some d => rfl
    simp [declare_gather_args, hni, List.find?, h1, h2]
  have hload1 : loadVector (openForWrite fs0 out) p1 = .ok ⟨r1, .f32, true⟩ := by
    simp [loadVector, os_path_exists, openForWrite, hop1, h1, np_loadtxt,
      hrect1, np_ascontiguousarray]
  have hload2 : loadVector (openForWrite fs0 out) p2 = .ok ⟨r2, .f32, true⟩ := by
    simp [loadVector, os_path_exists, openForWrite, hop2, h2, np_loadtxt,
      hrect2, np_ascontiguousarray]
  have hloadAll : loadAll (openForWrite fs0 out) [p1, p2]
      = .ok [⟨r1, .f32, true⟩, ⟨r2, .f32, true⟩] := by
    simp [loadAll, hload1, hload2]
  have hsc : sameCols [(⟨r1, .f32, true⟩ : NDArray), ⟨r2, .f32, true⟩] = false := by
    simp [sameCols, NDArray.numCols]
    exact fun hEq => hcols hEq.symm
  have hv : np_vstack [(⟨r1, .f32, true⟩ : NDArray), ⟨r2, .f32, true⟩]
      = .error (.shapeMismatch
          "all the input array dimensions except for the concatenation axis must match exactly") := by
    simp [np_vstack, hsc]
  constructor
  · simp only [main, hparse, hi, hloadAll, hv]
  · simp only [main, hparse, hi, hloadAll, hv]
    simp [openForWrite]

/-- Witness for C4's amended claim at concrete files with 2 and 3 columns. -/
theorem C4_witness :
    (main envG fsA "i.idx" ["a.txt", "c.txt"] 7 "o.h5").2
      = .error (.shapeMismatch
          "all the input array dimensions except for the concatenation axis must match exactly")
    ∧ (main envG fsA "i.idx" ["a.txt", "c.txt"] 7 "o.h5").1 "o.h5"
        = some .emptyFile :=
  C4_mismatch_leaves_empty_out envG fsA "i.idx" "a.txt" "c.txt" "o.h5" 7
    [[1, 2]] [[7, 8, 9]] rfl rfl rfl rfl (by decide) (by decide) rfl
    ⟨.onGpu 0 idx0, rfl⟩ (by decide)

/-- The library's k-NN shape contract: `search` returns one row per query row
and `k` entries per row, in both the distance and the id matrix. -/
def SearchContract (i : FaissCpuIndex) : Prop :=
  ∀ q k, (i.search q k).1.length = q.numRows
    ∧ (∀ row ∈ (i.search q k).1, row.length = k)
    ∧ (i.search q k).2.length = q.numRows
    ∧ (∀ row ∈ (i.search q k).2, row.length = k)

/-- C9: `executeSearch` performs its k-NN search with the hardcoded `k = 1`
(it takes no k parameter at all), so under the library's shape contract the
result file's `D` and `I` datasets have exactly one neighbor column per query. -/
theorem C9_executeSearch_k1 (env : Env) (fs : FileSystem)
    (embedded indexfile resultfile : String)
    (idx : LoadedIndex) (a spectra : NDArray)
    (hidx : read_faiss_index env fs indexfile = .ok idx)
    (ha : read_array_file fs embedded = .ok a)
    (hv : np_vstack [a] = .ok spectra)
    (hwf : SearchContract idx.base) :
    (executeSearch env fs embedded indexfile resultfile).2 = .ok ()
    ∧ (executeSearch env fs embedded indexfile resultfile).1 resultfile
        = some (.h5 [("spectrum_ids",
                      .vecI ((List.range (search_index idx spectra 1).1.length).map Int.ofNat)),
                     ("D", .matF (search_index idx spectra 1).1),
                     ("I", .matI (search_index idx spectra 1).2)])
    ∧ (∀ row ∈ (search_index idx spectra 1).1, row.length = 1)
    ∧ (∀ row ∈ (search_index idx spectra 1).2, row.length = 1) := by
  have hexec : executeSearch env fs embedded indexfile resultfile
      = (write_search_results fs (search_index idx spectra 1).1
          (search_index idx spectra 1).2 resultfile, .ok ()) := by
    simp only [executeSearch, hidx, ha, hv]
  refine ⟨by rw [hexec], ?_, ?_, ?_⟩
  · rw [hexec]
    simp [write_search_results]
  · intro row hrow
    have hD : (search_index idx spectra 1).1
        = (idx.base.search spectra 1).1.map (fun r => r.map Real.sqrt) := rfl
    rw [hD, List.mem_map] at hrow
    obtain ⟨r0, hr0, rfl⟩ := hrow
    rw [List.length_map]
    exact (hwf spectra 1).2.1 r0 hr0
  · intro row hrow
    exact (hwf spectra 1).2.2.2 row hrow

/-- The concrete index `idx0` satisfies the library's shape contract. -/
theorem idx0_contract : SearchContract idx0 := by
  intro q k
  refine ⟨by simp [idx0, NDArray.numRows], ?_, by simp [idx0, NDArray.numRows], ?_⟩
  · intro row hrow
    simp only [idx0, List.mem_map] at hrow
    obtain ⟨r, _, rfl⟩ := hrow
    exact List.length_replicate k 0
  · intro row hrow
    simp only [idx0, List.mem_map] at hrow
    obtain ⟨r, _, rfl⟩ := hrow
    exact List.length_replicate k 0

/-- Witness for C9 on a concrete `.h5`-free npy query file and index. -/
theorem C9_witness :
    (executeSearch envG fsA "q.npy" "i.idx" "r.h5").2 = .ok ()
    ∧ (∀ row ∈ (search_index (.onGpu 0 idx0) ⟨[[1, 2]], .f64, true⟩ 1).1,
        row.length = 1)
    ∧ (∀ row ∈ (search_index (.onGpu 0 idx0) ⟨[[1, 2]], .f64, true⟩ 1).2,
        row.length = 1) := by
  have h := C9_executeSearch_k1 envG fsA "q.npy" "i.idx" "r.h5" (.onGpu 0 idx0)
    ⟨[[1, 2]], .f64, true⟩ ⟨[[1, 2]], .f64, true⟩ rfl rfl rfl idx0_contract
  exact ⟨h.1, h.2.2.1, h.2.2.2⟩

/-- C10: when argument parsing succeeds it has already opened `--out` in write
mode, leaving an empty file there before the index is loaded or any query file
is read; hence whenever any later pipeline step fails, the final filesystem
still holds an empty file at the output path. -/
theorem C10_out_truncated_on_parse (env : Env) (fs0 : FileSystem)
    (indexfile : String) (embedded : List String) (k : Nat) (out : String)
    (fs1 : FileSystem)
    (hparse : declare_gather_args fs0 indexfile embedded out = .ok fs1) :
    fs1 out = some .emptyFile
    ∧ ∀ e, (main env fs0 indexfile embedded k out).2 = .error e →
        (main env fs0 indexfile embedded k out).1 out = some .emptyFile := by
  have hfs1 : fs1 = openForWrite fs0 out := by
    unfold declare_gather_args at hparse
    by_cases hi : (fs0 indexfile).isNone = true
    · simp [hi] at hparse
    · simp only [hi, Bool.false_eq_true, if_false] at hparse
      cases hfind : embedded.find? (fun p => (fs0 p).isNone) with
      | some p => rw [hfind] at hparse; cases hparse
      | none => rw [hfind] at hparse; cases hparse; rfl
  subst hfs1
  constructor
  · simp [openForWrite]
  · intro e he
    simp only [main, hparse] at he ⊢
    cases hr : read_faiss_index env (openForWrite fs0 out) indexfile with
    | error e2 => simp only [hr]; simp [openForWrite]
    | ok index =>
      simp only [hr] at he ⊢
      cases hl : loadAll (openForWrite fs0 out) embedded with
      | error e2 => simp only [hl]; simp [openForWrite]
      | ok arrays =>
        simp only [hl] at he ⊢
        cases hv : np_vstack arrays with
        | error e2 => simp only [hv]; simp [openForWrite]
        | ok spectra =>
          simp only [hv] at he
          simp at he

/-- Witness for C10: with a failing index deserializer, `main` fails after
parsing and the output path holds an empty file. -/
theorem C10_witness :
    declare_gather_args fsA "i.idx" ["a.txt"] "o.h5"
      = .ok (openForWrite fsA "o.h5")
    ∧ openForWrite fsA "o.h5" "o.h5" = some .emptyFile
    ∧ (main envBad fsA "i.idx" ["a.txt"] 5 "o.h5").2
        = .error (.indexLoadError "bad index")
    ∧ (main envBad fsA "i.idx" ["a.txt"] 5 "o.h5").1 "o.h5"
        = some .emptyFile := by
  have hparse : declare_gather_args fsA "i.idx" ["a.txt"] "o.h5"
      = .ok (openForWrite fsA "o.h5") := rfl
  have h := C10_out_truncated_on_parse envBad fsA "i.idx" ["a.txt"] 5 "o.h5"
    (openForWrite fsA "o.h5") hparse
  exact ⟨hparse, h.1, rfl, h.2 (.indexLoadError "bad index") rfl⟩

end DLEAMSE
